import Mathlib

/-!
# OCR Viewer — verification of the filter-pipeline core

Shallow embedding of the operative pipeline of the OCR_viewer repository:
the filter-stage widgets and the pipeline controller
(`src/ui/widgets/editor_panel.py`), the image state store
(`src/ui/models/image_store.py`), the OCR text store
(`src/ui/models/ocr_store.py`), the raster conversions
(`src/utils/image_convert.py`), the background worker
(`src/utils/worker_manager.py`) and the OCR entry point
(`src/backend/ocr_engine.py`).

Images are modelled at the pixel level: a `QImage` is its RGBA pixel
matrix (the byte layout after `convertToFormat(Format_RGBA8888)`, which is
lossless on pixel values), an OpenCV buffer is either a single-channel or a
3-channel BGR pixel matrix.  The transform library `backend.processor`
imported by `editor_panel.py` is not part of the repository snapshot (only
the unrelated prototype `core/processor.py` exists), so its functions are
modelled from the spec as executable stand-ins with the documented
signatures and failure behaviour; no claim below depends on the exact
pixel arithmetic of a blur or morphology kernel.
-/

namespace OCRViewer

/-- One RGBA pixel of a display image (each channel a byte value). -/
structure RGBA where
  r : Nat
  g : Nat
  b : Nat
  a : Nat
deriving Repr, DecidableEq

/-- A `QImage`, modelled as its RGBA pixel matrix (rows of pixels).
Byte-identity of two images is equality of these matrices. -/
structure QImage where
  pixels : List (List RGBA)
deriving Repr, DecidableEq

/-- One BGR pixel of a 3-channel OpenCV buffer. -/
structure BGR where
  b : Nat
  g : Nat
  r : Nat
deriving Repr, DecidableEq

/-- An OpenCV working buffer: 3-channel BGR (`len(img.shape) == 3`) or
single-channel grayscale (`img.ndim == 2`). -/
inductive CVImage where
  | color (pixels : List (List BGR))
  | gray (pixels : List (List Nat))
deriving Repr, DecidableEq

/-- `utils/image_convert.qimage_to_cv`: convert to RGBA8888, take the RGB
channels and reverse them into a BGR buffer (`arr[..., :3][:, :, ::-1]`);
the alpha channel is dropped. -/
def qimage_to_cv (q : QImage) : CVImage :=
  .color (q.pixels.map (List.map (fun p => ⟨p.b, p.g, p.r⟩)))

/-- `utils/image_convert.cv_to_qimage`: a grayscale buffer becomes
`(v, v, v, 255)` per pixel, a BGR buffer is reversed to RGB with alpha
set to 255 (`Format_RGBA8888`). -/
def cv_to_qimage : CVImage → QImage
  | .color px => ⟨px.map (List.map (fun p => ⟨p.r, p.g, p.b, 255⟩))⟩
  | .gray px => ⟨px.map (List.map (fun v => ⟨v, v, v, 255⟩))⟩

/-- The original image with every pixel's alpha channel forced to 255;
what the cv round trip actually preserves. -/
def forceOpaque (q : QImage) : QImage :=
  ⟨q.pixels.map (List.map (fun p => ⟨p.r, p.g, p.b, 255⟩))⟩

/-- Every pixel of the image is fully opaque. -/
def allOpaque (q : QImage) : Bool :=
  q.pixels.all (List.all · (fun p => p.a == 255))

theorem roundTrip_eq_forceOpaque (q : QImage) :
    cv_to_qimage (qimage_to_cv q) = forceOpaque q := by
  cases q with
  | mk px =>
    simp [qimage_to_cv, cv_to_qimage, forceOpaque, List.map_map, Function.comp]

theorem map_id_of_mem {α : Type} (l : List α) (f : α → α)
    (h : ∀ x ∈ l, f x = x) : l.map f = l := by
  induction l with
  | nil => rfl
  | cons x xs ih => simp_all

theorem forceOpaque_of_allOpaque (q : QImage) (h : allOpaque q = true) :
    forceOpaque q = q := by
  cases q with
  | mk px =>
    simp only [allOpaque, List.all_eq_true] at h
    simp only [forceOpaque, QImage.mk.injEq]
    refine map_id_of_mem px _ ?_
    intro row hrow
    refine map_id_of_mem row _ ?_
    intro p hp
    have ha := h row hrow p hp
    simp only [beq_iff_eq] at ha
    cases p
    simp_all

-- ===========================================================================
-- Transform Library (spec-modelled; `backend/processor.py` absent from src)
-- ===========================================================================

/-- A transform-library failure (a raised OpenCV error). -/
inductive TErr where
  | badChannels
  | badKernel
deriving Repr, DecidableEq

/-- Integer luma of a BGR pixel (standard weights). -/
def lumaOfBGR (p : BGR) : Nat :=
  (299 * p.r + 587 * p.g + 114 * p.b + 500) / 1000

/-- Modelled from the spec: `to_gray(image)` of the Transform Library
(black-box external collaborator, absent from the repository's backend
package).  Converts a 3-channel buffer to single channel; raises on input
that is already single channel (BGR→GRAY conversion needs 3 channels). -/
def to_gray : CVImage → Except TErr CVImage
  | .color px => .ok (.gray (px.map (List.map lumaOfBGR)))
  | .gray _ => .error .badChannels

/-- Binary threshold of one channel value (`THRESH_BINARY` rule). -/
def thresholdVal (thresh maxval v : Nat) : Nat :=
  if thresh < v then maxval else 0

/-- Modelled from the spec: `to_binary(image, threshold, max_value)` of the
Transform Library; thresholds every channel value. -/
def to_binary (img : CVImage) (thresh maxval : Nat) : Except TErr CVImage :=
  match img with
  | .gray px => .ok (.gray (px.map (List.map (thresholdVal thresh maxval))))
  | .color px => .ok (.color (px.map (List.map
      (fun p => ⟨thresholdVal thresh maxval p.b, thresholdVal thresh maxval p.g,
                 thresholdVal thresh maxval p.r⟩))))

/-- Modelled from the spec: `invert(image)` of the Transform Library;
bitwise complement of every channel byte. -/
def invert (img : CVImage) : Except TErr CVImage :=
  match img with
  | .gray px => .ok (.gray (px.map (List.map (fun v => 255 - v))))
  | .color px => .ok (.color (px.map (List.map
      (fun p => ⟨255 - p.b, 255 - p.g, 255 - p.r⟩))))

/-- The channel values of a row at indices within distance `r` of `i`. -/
def window (row : List Nat) (i r : Nat) : List Nat :=
  (row.enum.filter (fun v => i ≤ v.1 + r ∧ v.1 ≤ i + r)).map Prod.snd

/-- Apply a window aggregator across one single-channel row. -/
def rowOp (f : List Nat → Nat) (r : Nat) (row : List Nat) : List Nat :=
  (List.range row.length).map (fun i => f (window row i r))

/-- The pixels of a BGR row at indices within distance `r` of `i`. -/
def windowC (row : List BGR) (i r : Nat) : List BGR :=
  (row.enum.filter (fun v => i ≤ v.1 + r ∧ v.1 ≤ i + r)).map Prod.snd

/-- Apply a window aggregator channel-wise across one BGR row. -/
def rowOpC (f : List Nat → Nat) (r : Nat) (row : List BGR) : List BGR :=
  (List.range row.length).map (fun i =>
    let w := windowC row i r
    ⟨f (w.map BGR.b), f (w.map BGR.g), f (w.map BGR.r)⟩)

/-- Lift a per-window aggregator to a channel-kind-preserving image map. -/
def onImage (f : List Nat → Nat) (r : Nat) : CVImage → CVImage
  | .gray px => .gray (px.map (rowOp f r))
  | .color px => .color (px.map (rowOpC f r))

/-- Mean of a channel window (0 on an empty window). -/
def meanOf (l : List Nat) : Nat := l.sum / l.length

/-- Insert into a sorted list of channel values. -/
def insertSorted (x : Nat) : List Nat → List Nat
  | [] => [x]
  | y :: ys => if x ≤ y then x :: y :: ys else y :: insertSorted x ys

/-- Insertion sort of channel values. -/
def sortNat : List Nat → List Nat
  | [] => []
  | x :: xs => insertSorted x (sortNat xs)

/-- Median of a channel window (0 on an empty window). -/
def medianOf (l : List Nat) : Nat :=
  (sortNat l).getD (l.length / 2) 0

/-- Maximum of a channel window. -/
def maxOf (l : List Nat) : Nat := l.foldl Nat.max 0

/-- Minimum of a channel window (255 on an empty window). -/
def minOf (l : List Nat) : Nat := l.foldl Nat.min 255

/-- Modelled from the spec: `gaussian_blur(image, kernel_size)` of the
Transform Library.  Kernel sizes must be positive odd integers; an even or
zero size raises (as the OpenCV call does).  The smoothing itself is a
black box in the spec; the stand-in is a horizontal windowed mean — no
claim depends on the kernel's exact arithmetic. -/
def gaussian_blur (img : CVImage) (k : Nat × Nat) : Except TErr CVImage :=
  if k.1 % 2 = 0 ∨ k.2 % 2 = 0 then .error .badKernel
  else .ok (onImage meanOf (k.1 / 2) img)

/-- Modelled from the spec: `median_blur(image, kernel_size)` of the
Transform Library.  The kernel size must be a positive odd integer; an even
or zero size raises.  Stand-in aggregator: horizontal windowed median. -/
def median_blur (img : CVImage) (ksize : Nat) : Except TErr CVImage :=
  if ksize % 2 = 0 then .error .badKernel
  else .ok (onImage medianOf (ksize / 2) img)

/-- Iterate a pure image map `n` times. -/
def repeatApply (f : CVImage → CVImage) : Nat → CVImage → CVImage
  | 0, img => img
  | n + 1, img => repeatApply f n (f img)

/-- Modelled from the spec: `dilate(image, kernel_size, iterations)` of the
Transform Library.  Stand-in aggregator: iterated horizontal windowed
maximum. -/
def dilate (img : CVImage) (k : Nat × Nat) (iterations : Nat) :
    Except TErr CVImage :=
  .ok (repeatApply (onImage maxOf (k.1 / 2)) iterations img)

/-- Modelled from the spec: `erode(image, kernel_size, iterations)` of the
Transform Library.  Stand-in aggregator: iterated horizontal windowed
minimum. -/
def erode (img : CVImage) (k : Nat × Nat) (iterations : Nat) :
    Except TErr CVImage :=
  .ok (repeatApply (onImage minOf (k.1 / 2)) iterations img)

-- ===========================================================================
-- Filter stage widgets (`editor_panel.py`); only the state that feeds
-- `get_params`/`apply`/`reset` is modelled (purely visual enabled flags of
-- sliders and spinboxes are dropped, except the morphology radio-button
-- enabled flags, which `get_params` itself reads).
-- ===========================================================================

/-- `GrayscaleFilterWidget`: a single checkbox. -/
structure GrayscaleFilterWidget where
  checked : Bool
deriving Repr, DecidableEq

/-- `GrayscaleFilterWidget.apply`. -/
def GrayscaleFilterWidget.apply (w : GrayscaleFilterWidget) (img : CVImage) :
    Except TErr CVImage :=
  if w.checked then to_gray img else .ok img

/-- `GrayscaleFilterWidget.reset`. -/
def GrayscaleFilterWidget.reset (_ : GrayscaleFilterWidget) :
    GrayscaleFilterWidget := ⟨false⟩

/-- `BinaryFilterWidget`: checkbox plus threshold slider (range [0, 255],
initial value 127). -/
structure BinaryFilterWidget where
  checked : Bool
  threshold : Nat
deriving Repr, DecidableEq

/-- `BinaryFilterWidget.apply`: when enabled, first converts a 3-channel
input to grayscale (`if len(img.shape) == 3`), then thresholds with
`max_value = 255`. -/
def BinaryFilterWidget.apply (w : BinaryFilterWidget) (img : CVImage) :
    Except TErr CVImage :=
  if w.checked then
    match img with
    | .color px => to_gray (.color px) >>= fun g => to_binary g w.threshold 255
    | .gray px => to_binary (.gray px) w.threshold 255
  else .ok img

/-- `BinaryFilterWidget.reset`: uncheck, slider back to 127. -/
def BinaryFilterWidget.reset (_ : BinaryFilterWidget) : BinaryFilterWidget :=
  ⟨false, 127⟩

/-- `InvertFilterWidget`: a single checkbox. -/
structure InvertFilterWidget where
  checked : Bool
deriving Repr, DecidableEq

/-- `InvertFilterWidget.apply`. -/
def InvertFilterWidget.apply (w : InvertFilterWidget) (img : CVImage) :
    Except TErr CVImage :=
  if w.checked then invert img else .ok img

/-- `InvertFilterWidget.reset`. -/
def InvertFilterWidget.reset (_ : InvertFilterWidget) : InvertFilterWidget :=
  ⟨false⟩

/-- `GaussianFilterWidget`: checkbox plus two kernel-size spinboxes
(initial value 3 each). -/
structure GaussianFilterWidget where
  checked : Bool
  k1 : Nat
  k2 : Nat
deriving Repr, DecidableEq

/-- `GaussianFilterWidget.apply`. -/
def GaussianFilterWidget.apply (w : GaussianFilterWidget) (img : CVImage) :
    Except TErr CVImage :=
  if w.checked then gaussian_blur img (w.k1, w.k2) else .ok img

/-- `GaussianFilterWidget.reset`. -/
def GaussianFilterWidget.reset (_ : GaussianFilterWidget) :
    GaussianFilterWidget := ⟨false, 3, 3⟩

/-- `MedianFilterWidget`: checkbox plus one kernel-size spinbox
(initial value 3). -/
structure MedianFilterWidget where
  checked : Bool
  ksize : Nat
deriving Repr, DecidableEq

/-- `MedianFilterWidget.apply`. -/
def MedianFilterWidget.apply (w : MedianFilterWidget) (img : CVImage) :
    Except TErr CVImage :=
  if w.checked then median_blur img w.ksize else .ok img

/-- `MedianFilterWidget.reset`. -/
def MedianFilterWidget.reset (_ : MedianFilterWidget) : MedianFilterWidget :=
  ⟨false, 3⟩

/-- Which radio button of the morphology stage is checked (the button group
is exclusive, so exactly one always is; dilate at construction). -/
inductive MorphBtn where
  | dilateBtn
  | erodeBtn
deriving Repr, DecidableEq

/-- `DilationErosionFilterWidget`: the enabled flags of the two radio
buttons are part of the behavioural state because `get_params` reads them
(`enabled` is their conjunction, and `get_checked_radio_btn_id` returns -1
when the checked button is not enabled). -/
structure DilationErosionFilterWidget where
  dilateEnabled : Bool
  erodeEnabled : Bool
  checkedBtn : MorphBtn
  ksize : Nat
  iter : Nat
deriving Repr, DecidableEq

/-- `DilationErosionFilterWidget.get_checked_radio_btn_id`: the id of the
checked radio button if it is enabled, otherwise -1. -/
def DilationErosionFilterWidget.get_checked_radio_btn_id
    (w : DilationErosionFilterWidget) : Int :=
  match w.checkedBtn with
  | .dilateBtn => if w.dilateEnabled then 1 else -1
  | .erodeBtn => if w.erodeEnabled then 2 else -1

/-- The `enabled` entry of `DilationErosionFilterWidget.get_params`. -/
def DilationErosionFilterWidget.enabled (w : DilationErosionFilterWidget) :
    Bool :=
  w.dilateEnabled && w.erodeEnabled

/-- `DilationErosionFilterWidget.apply`: dilate on id 1, erode on id 2,
otherwise the input unchanged. -/
def DilationErosionFilterWidget.apply (w : DilationErosionFilterWidget)
    (img : CVImage) : Except TErr CVImage :=
  if w.enabled then
    if w.get_checked_radio_btn_id = 1 then dilate img (w.ksize, w.ksize) w.iter
    else if w.get_checked_radio_btn_id = 2 then
      erode img (w.ksize, w.ksize) w.iter
    else .ok img
  else .ok img

/-- `DilationErosionFilterWidget.reset`: disables the radio buttons and
spinboxes and restores kernel size 2 and iteration count 1 — but does not
touch which radio button is checked (and leaves the stage's own checkbox
as it was). -/
def DilationErosionFilterWidget.reset (w : DilationErosionFilterWidget) :
    DilationErosionFilterWidget :=
  { w with dilateEnabled := false, erodeEnabled := false, ksize := 2,
           iter := 1 }

-- ===========================================================================
-- The pipeline (EditorContainer) and the stores
-- ===========================================================================

/-- One element of `EditorContainer.filters` (the closed set of stage
kinds, in a sum type). -/
inductive FilterWidget where
  | grayscaleW (w : GrayscaleFilterWidget)
  | binaryW (w : BinaryFilterWidget)
  | invertW (w : InvertFilterWidget)
  | gaussianW (w : GaussianFilterWidget)
  | medianW (w : MedianFilterWidget)
  | morphW (w : DilationErosionFilterWidget)
deriving Repr, DecidableEq

/-- Dynamic dispatch of `apply` over the stage kinds. -/
def FilterWidget.apply : FilterWidget → CVImage → Except TErr CVImage
  | .grayscaleW w, img => w.apply img
  | .binaryW w, img => w.apply img
  | .invertW w, img => w.apply img
  | .gaussianW w, img => w.apply img
  | .medianW w, img => w.apply img
  | .morphW w, img => w.apply img

/-- The `enabled` entry of each stage's `get_params`. -/
def FilterWidget.enabled : FilterWidget → Bool
  | .grayscaleW w => w.checked
  | .binaryW w => w.checked
  | .invertW w => w.checked
  | .gaussianW w => w.checked
  | .medianW w => w.checked
  | .morphW w => w.enabled

/-- The states of the six stages of `EditorContainer.filters`. -/
structure FiltersState where
  grayscale : GrayscaleFilterWidget
  binary : BinaryFilterWidget
  invertSt : InvertFilterWidget
  gaussian : GaussianFilterWidget
  median : MedianFilterWidget
  morph : DilationErosionFilterWidget
deriving Repr, DecidableEq

/-- `self.filters` in construction order (`editor_panel.py` lines
418–425): grayscale, binarize, invert, gaussian blur, median blur,
dilation/erosion. -/
def FiltersState.list (f : FiltersState) : List FilterWidget :=
  [.grayscaleW f.grayscale, .binaryW f.binary, .invertW f.invertSt,
   .gaussianW f.gaussian, .medianW f.median, .morphW f.morph]

/-- The widget states at construction time (all stages disabled, documented
defaults, dilate radio checked). -/
def FiltersState.initial : FiltersState :=
  ⟨⟨false⟩, ⟨false, 127⟩, ⟨false⟩, ⟨false, 3, 3⟩, ⟨false, 3⟩,
   ⟨false, false, .dilateBtn, 2, 1⟩⟩

/-- `EditorContainer.reset_all_filters`: call `reset()` on every stage. -/
def reset_all_filters (f : FiltersState) : FiltersState :=
  ⟨f.grayscale.reset, f.binary.reset, f.invertSt.reset, f.gaussian.reset,
   f.median.reset, f.morph.reset⟩

/-- Every stage's `get_params` reports `enabled = false`. -/
def allDisabled (f : FiltersState) : Bool :=
  f.list.all (fun w => !w.enabled)

/-- The fold of the for-loop in `on_params_changed`: thread the working
buffer through every stage's `apply` in list order; a raised transform
error aborts the loop and propagates. -/
def applyAll (f : FiltersState) (img : CVImage) : Except TErr CVImage :=
  f.list.foldlM (fun acc w => w.apply acc) img

/-- `ui/models/image_store.ImageStore`: the two canonical image slots plus
the original's source path. -/
structure ImageStore where
  img : QImage
  path : String
  edited : QImage
deriving Repr, DecidableEq

/-- `ImageStore.set_original_img`: replace the original slot and its path
(the `imageChanged` notification to subscribers is modelled at the caller
where it matters). -/
def ImageStore.set_original_img (st : ImageStore) (i : QImage) (p : String) :
    ImageStore :=
  { st with img := i, path := p }

/-- `ImageStore.get_original_img`. -/
def ImageStore.get_original_img (st : ImageStore) : QImage := st.img

/-- `ImageStore.get_path`. -/
def ImageStore.get_path (st : ImageStore) : String := st.path

/-- `ImageStore.set_edited_img`: replace the edited slot. -/
def ImageStore.set_edited_img (st : ImageStore) (i : QImage) : ImageStore :=
  { st with edited := i }

/-- `ImageStore.get_edited_img`. -/
def ImageStore.get_edited_img (st : ImageStore) : QImage := st.edited

/-- The state of an `EditorContainer`: the cached OpenCV copy of the
original (`self.original_cv_img`, `None` until an image is loaded), the
six stage widgets and the shared image store. -/
structure ContainerState where
  originalCv : Option CVImage
  filters : FiltersState
  store : ImageStore
deriving Repr, DecidableEq

/-- Outcome of one run of `EditorContainer.on_params_changed`: the
container state afterwards, the list of images published through
`set_edited_img` during the run (in order), and the exception escaping to
the caller, if any. -/
structure PipeResult where
  state : ContainerState
  published : List QImage
  raised : Option TErr
deriving Repr, DecidableEq

/-- `EditorContainer.on_params_changed`: no-op when no original is loaded;
otherwise folds a copy of the stored original through every stage's
`apply` and only then converts the final buffer and publishes it.  A
transform exception aborts the method before `set_edited_img` is reached,
so the store is left untouched and nothing is published. -/
def on_params_changed (st : ContainerState) : PipeResult :=
  match st.originalCv with
  | none => ⟨st, [], none⟩
  | some orig =>
    match applyAll st.filters orig with
    | .error e => ⟨st, [], some e⟩
    | .ok processed =>
      let qimg := cv_to_qimage processed
      ⟨{ st with store := st.store.set_edited_img qimg }, [qimg], none⟩

/-- `EditorContainer.on_original_image_changed`: cache the OpenCV
conversion of the new original, reset every filter, and publish the new
original itself (the `QImage` argument, unconverted) as the edited
image. -/
def on_original_image_changed (st : ContainerState) (qimg : QImage) :
    ContainerState × List QImage :=
  let st1 : ContainerState :=
    { originalCv := some (qimage_to_cv qimg),
      filters := reset_all_filters st.filters,
      store := st.store.set_edited_img qimg }
  (st1, [qimg])

-- ===========================================================================
-- OCR engine, OCR store and the background worker
-- ===========================================================================

/-- The structured per-word result of a data-extraction OCR call
(tokens with boxes and confidences).  Modelled from the spec: the OCR
engine is an external black box, so the payload content is left empty —
only its shape matters to the claims. -/
structure OCRData where
  tokens : List String
  boxes : List (Nat × Nat × Nat × Nat)
  confidences : List Nat
deriving Repr, DecidableEq

/-- A Python value flowing out of the OCR call: either a plain extracted
string or the structured data dictionary. -/
inductive OCRValue where
  | str (s : String)
  | data (d : OCRData)
deriving Repr, DecidableEq

/-- Modelled from the spec: `pytesseract.image_to_data(..., Output.DICT)`,
the extended black-box engine form returning structured per-word data. -/
def image_to_data (_ : CVImage) (_ : String) : OCRData :=
  ⟨[], [], []⟩

/-- `backend/ocr_engine.orc_tesseract`: calls `image_to_data` with
`Output.DICT` and returns the resulting dictionary (its own annotation
says `-> dict`), not an extracted-text string. -/
def orc_tesseract (img : CVImage) (lang : String) : OCRValue :=
  .data (image_to_data img lang)

/-- `EditorContainer.run_ocr`: read the edited image from the store (at
the moment this body executes), convert it, and call the engine. -/
def run_ocr (st : ContainerState) : OCRValue :=
  orc_tesseract (qimage_to_cv (st.store.get_edited_img)) "eng"

/-- `ui/models/ocr_store.OCRStore`: the published text slot. -/
structure OCRStore where
  text : Option OCRValue
deriving Repr, DecidableEq

/-- `OCRStore.set_text`. -/
def OCRStore.set_text (st : OCRStore) (v : OCRValue) : OCRStore :=
  { st with text := some v }

/-- `EditorContainer._on_ocr_successful`: publish the worker's result to
the text store. -/
def on_ocr_successful (st : OCRStore) (v : OCRValue) : OCRStore :=
  st.set_text v

/-- A Python exception escaping a handler or the worker body. -/
structure PyErr where
  message : String
deriving Repr, DecidableEq

/-- The observable actions of `Worker.run` in order. -/
inductive RunEvent where
  | setCursor
  | emitResult
  | emitError
  | restoreCursor
  | emitCompleted
deriving Repr, DecidableEq

/-- The behaviour of one worker run: the outcome of `self.func()` and the
exception, if any, raised by a directly-connected result or error
handler during the corresponding `emit`. -/
structure RunBehavior where
  funcResult : Except PyErr OCRValue
  resultHandlerRaises : Option PyErr
  errorHandlerRaises : Option PyErr
deriving Repr

/-- `utils/worker_manager.Worker.run`: set the wait cursor, run the
function inside try/except/else/finally — `error` is emitted from the
except branch, `result` from the else branch, and the finally block
restores the cursor and emits `completed` regardless, after which any
exception pending from the emit propagates out. -/
def Worker.run (b : RunBehavior) : List RunEvent × Option PyErr :=
  match b.funcResult with
  | .error _ =>
    ([.setCursor, .emitError, .restoreCursor, .emitCompleted],
     b.errorHandlerRaises)
  | .ok _ =>
    ([.setCursor, .emitResult, .restoreCursor, .emitCompleted],
     b.resultHandlerRaises)

-- ===========================================================================
-- Interleaving semantics for the OCR trigger (`_ocr_worker`), store
-- updates and worker execution
-- ===========================================================================

/-- An event of the interface/worker interleaving: the user triggers an
OCR run (`_ocr_worker` enqueues a `Worker(self.run_ocr)`, capturing no
image), a pipeline recomputation publishes a new edited image, or the
thread pool executes a queued worker (whose body reads the store's
edited image at that moment). -/
inductive OcrEvent where
  | trigger
  | setEdited (q : QImage)
  | runWorker
deriving Repr, DecidableEq

/-- State of the OCR-run interleaving: the store's edited slot, the
number of queued worker runs, and the images handed to the OCR engine so
far, in order. -/
structure OcrSys where
  edited : QImage
  pending : Nat
  handed : List CVImage
deriving Repr, DecidableEq

/-- One step of the interleaving. -/
def ocrStep (s : OcrSys) : OcrEvent → OcrSys
  | .trigger => { s with pending := s.pending + 1 }
  | .setEdited q => { s with edited := q }
  | .runWorker =>
    match s.pending with
    | 0 => s
    | n + 1 =>
      { s with pending := n, handed := s.handed ++ [qimage_to_cv s.edited] }

/-- Run a whole event sequence. -/
def ocrRun (s : OcrSys) (es : List OcrEvent) : OcrSys :=
  es.foldl ocrStep s

-- ===========================================================================
-- Helper predicates and lemmas
-- ===========================================================================

/-- The transform call returned a single-channel buffer. -/
def isOkGray : Except TErr CVImage → Bool
  | .ok (.gray _) => true
  | _ => false

/-- The transform call returned a single-channel buffer or raised (it did
not hand 3-channel data downstream). -/
def isGrayOrErr : Except TErr CVImage → Bool
  | .ok (.gray _) => true
  | .error _ => true
  | _ => false

theorem repeatApply_onImage_gray (f : List Nat → Nat) (r n : Nat)
    (g : List (List Nat)) :
    ∃ g2, repeatApply (onImage f r) n (.gray g) = .gray g2 := by
  induction n generalizing g with
  | zero => exact ⟨g, rfl⟩
  | succ n ih =>
    simpa [repeatApply, onImage] using ih (g.map (rowOp f r))

/-- With every stage disabled the fold is the identity on the working
buffer. -/
theorem applyAll_of_allDisabled (f : FiltersState) (img : CVImage)
    (h : allDisabled f = true) : applyAll f img = .ok img := by
  obtain ⟨g, b, iv, ga, m, mo⟩ := f
  simp only [allDisabled, FiltersState.list, FilterWidget.enabled,
    List.all_cons, List.all_nil, Bool.and_eq_true, Bool.not_eq_eq_eq_not,
    Bool.not_true] at h
  obtain ⟨h1, h2, h3, h4, h5, h6, -⟩ := h
  simp [applyAll, FiltersState.list, List.foldlM, FilterWidget.apply,
    GrayscaleFilterWidget.apply, BinaryFilterWidget.apply,
    InvertFilterWidget.apply, GaussianFilterWidget.apply,
    MedianFilterWidget.apply, DilationErosionFilterWidget.apply,
    h1, h2, h3, h4, h5, h6]
  rfl

-- ===========================================================================
-- Claims
-- ===========================================================================

/-- C10: frame property of the Image State Store: `set_edited_img`
changes only the edited slot (the original image and its path are
untouched), and `set_original_img` changes only the original slot and
path, leaving the edited slot holding its previous value. -/
theorem c10_store_frame (st : ImageStore) (i : QImage) (p : String)
    (j : QImage) :
    ((st.set_edited_img j).get_original_img = st.get_original_img
      ∧ (st.set_edited_img j).get_path = st.get_path
      ∧ (st.set_edited_img j).get_edited_img = j)
    ∧ ((st.set_original_img i p).get_edited_img = st.get_edited_img
      ∧ (st.set_original_img i p).get_original_img = i
      ∧ (st.set_original_img i p).get_path = p) := by
  simp [ImageStore.set_edited_img, ImageStore.set_original_img,
    ImageStore.get_original_img, ImageStore.get_path,
    ImageStore.get_edited_img]

/-- C8: for every OCR run — whether the engine call returns normally or
raises, and whether or not the success/failure notification handler
itself raises — `Worker.run` fires the `completed` (busy-indicator-clear)
notification exactly once, and restores the cursor exactly once. -/
theorem c8_completed_fires_once (b : RunBehavior) :
    (Worker.run b).1.count RunEvent.emitCompleted = 1
    ∧ (Worker.run b).1.count RunEvent.restoreCursor = 1 := by
  cases h : b.funcResult <;> simp [Worker.run, h, List.count_cons]

/-- C9: the claim says the OCR engine call returns the extracted text as
a string and that string is published; the operative code instead calls
the data-extraction form (`image_to_data` with `Output.DICT`), returns
its dictionary, and publishes that dictionary to the text store — never a
plain string, contradicting the `-> str | None` and `text: str`
declarations of `run_ocr`, `_on_ocr_successful` and `OCRStore.set_text`. -/
theorem c9_publishes_data_not_string (st : ContainerState) (ts : OCRStore) :
    run_ocr st =
      OCRValue.data (image_to_data (qimage_to_cv st.store.get_edited_img)
        "eng")
    ∧ (∀ s : String, run_ocr st ≠ OCRValue.str s)
    ∧ (on_ocr_successful ts (run_ocr st)).text =
        some (OCRValue.data (image_to_data
          (qimage_to_cv st.store.get_edited_img) "eng")) := by
  refine ⟨rfl, ?_, rfl⟩
  intro s h
  simp [run_ocr, orc_tesseract] at h

/-- C3: determinism of the recomputation — the published output and the
escaping error of `on_params_changed` are a function of the stored
original image and the stage configuration only; two container states
agreeing on those (but possibly differing in the store's edited slot or
path) publish identical bytes. -/
theorem c3_recompute_deterministic (st1 st2 : ContainerState)
    (h1 : st1.originalCv = st2.originalCv) (h2 : st1.filters = st2.filters) :
    (on_params_changed st1).published = (on_params_changed st2).published
    ∧ (on_params_changed st1).raised = (on_params_changed st2).raised := by
  simp only [on_params_changed, h1, h2]
  cases h : st2.originalCv with
  | none => simp
  | some orig => cases happ : applyAll st2.filters orig <;> simp [happ]

/-- Witness for C3: two stores holding different edited images but the
same original and configuration publish the same result. -/
theorem c3_recompute_deterministic_witness :
    (⟨some (CVImage.gray [[7]]), FiltersState.initial,
        ⟨⟨[]⟩, "a", ⟨[[⟨1, 2, 3, 4⟩]]⟩⟩⟩ : ContainerState).originalCv =
      (⟨some (CVImage.gray [[7]]), FiltersState.initial,
        ⟨⟨[]⟩, "b", ⟨[]⟩⟩⟩ : ContainerState).originalCv
    ∧ (on_params_changed ⟨some (CVImage.gray [[7]]), FiltersState.initial,
          ⟨⟨[]⟩, "a", ⟨[[⟨1, 2, 3, 4⟩]]⟩⟩⟩).published =
        (on_params_changed ⟨some (CVImage.gray [[7]]), FiltersState.initial,
          ⟨⟨[]⟩, "b", ⟨[]⟩⟩⟩).published := by
  refine ⟨rfl, ?_⟩
  exact (c3_recompute_deterministic _ _ rfl rfl).1

/-- C6: if some stage's transform call raises during the recomputation,
the error propagates to the caller of `on_params_changed`, nothing is
published, and the store's edited image is left at its previous value. -/
theorem c6_error_leaves_store (st : ContainerState) (orig : CVImage)
    (e : TErr) (h : st.originalCv = some orig)
    (he : applyAll st.filters orig = .error e) :
    (on_params_changed st).raised = some e
    ∧ (on_params_changed st).published = []
    ∧ (on_params_changed st).state.store = st.store := by
  simp [on_params_changed, h, he]

/-- A container state whose gaussian stage is enabled with an even kernel
size: the blur call raises on recomputation. -/
def filtersC6 : FiltersState :=
  ⟨⟨false⟩, ⟨false, 127⟩, ⟨false⟩, ⟨true, 2, 3⟩, ⟨false, 3⟩,
   ⟨false, false, .dilateBtn, 2, 1⟩⟩

/-- The image store before the failing recomputation. -/
def storeC6 : ImageStore := ⟨⟨[]⟩, "p", ⟨[[⟨1, 2, 3, 255⟩]]⟩⟩

/-- The container state before the failing recomputation. -/
def stC6 : ContainerState := ⟨some (.gray [[7]]), filtersC6, storeC6⟩

/-- Witness for C6: a gaussian stage enabled with an even kernel size
makes the blur call raise; the edited slot keeps its old bytes and the
error reaches the caller. -/
theorem c6_error_leaves_store_witness :
    stC6.originalCv = some (CVImage.gray [[7]])
    ∧ applyAll stC6.filters (CVImage.gray [[7]]) = .error .badKernel
    ∧ (on_params_changed stC6).state.store = storeC6 := by
  refine ⟨rfl, rfl, ?_⟩
  exact (c6_error_leaves_store stC6 (CVImage.gray [[7]]) .badKernel rfl
    rfl).2.2

/-- C1: every recomputation starts from the stored original, folds it
through the six stages' `apply` in construction order (grayscale →
binarize → invert → gaussian-blur → median-blur → morphology), and
publishes exactly the final buffer once at the end — never an
intermediate, and never reading the previously edited image. -/
theorem c1_full_chain_once (st : ContainerState) (orig : CVImage)
    (h : st.originalCv = some orig) :
    on_params_changed st =
      match st.filters.grayscale.apply orig >>= fun i1 =>
            st.filters.binary.apply i1 >>= fun i2 =>
            st.filters.invertSt.apply i2 >>= fun i3 =>
            st.filters.gaussian.apply i3 >>= fun i4 =>
            st.filters.median.apply i4 >>= fun i5 =>
            st.filters.morph.apply i5 with
      | .ok res =>
        ⟨{ st with store := st.store.set_edited_img (cv_to_qimage res) },
         [cv_to_qimage res], none⟩
      | .error e => ⟨st, [], some e⟩ := by
  have hfold : applyAll st.filters orig =
      (st.filters.grayscale.apply orig >>= fun i1 =>
       st.filters.binary.apply i1 >>= fun i2 =>
       st.filters.invertSt.apply i2 >>= fun i3 =>
       st.filters.gaussian.apply i3 >>= fun i4 =>
       st.filters.median.apply i4 >>= fun i5 =>
       st.filters.morph.apply i5) := by
    simp [applyAll, FiltersState.list, List.foldlM, FilterWidget.apply]
  simp only [on_params_changed, h, hfold]
  generalize (st.filters.grayscale.apply orig >>= fun i1 =>
       st.filters.binary.apply i1 >>= fun i2 =>
       st.filters.invertSt.apply i2 >>= fun i3 =>
       st.filters.gaussian.apply i3 >>= fun i4 =>
       st.filters.median.apply i4 >>= fun i5 =>
       st.filters.morph.apply i5) = res
  cases res <;> rfl

/-- The original working buffer of the C1 witness state. -/
def imgC1 : CVImage := .color [[⟨10, 20, 30⟩]]

/-- The container state of the C1 witness. -/
def stC1 : ContainerState := ⟨some imgC1, FiltersState.initial, ⟨⟨[]⟩, "", ⟨[]⟩⟩⟩

/-- Witness for C1 at a concrete loaded 1×1 color image. -/
theorem c1_full_chain_once_witness :
    stC1.originalCv = some imgC1
    ∧ on_params_changed stC1 =
        match stC1.filters.grayscale.apply imgC1 >>= fun i1 =>
              stC1.filters.binary.apply i1 >>= fun i2 =>
              stC1.filters.invertSt.apply i2 >>= fun i3 =>
              stC1.filters.gaussian.apply i3 >>= fun i4 =>
              stC1.filters.median.apply i4 >>= fun i5 =>
              stC1.filters.morph.apply i5 with
        | .ok res =>
          ⟨{ stC1 with store := stC1.store.set_edited_img (cv_to_qimage res) },
           [cv_to_qimage res], none⟩
        | .error e => ⟨stC1, [], some e⟩ :=
  ⟨rfl, c1_full_chain_once stC1 imgC1 rfl⟩

/-- The 1×1 non-opaque original refuting C2 as stated. -/
def qC2 : QImage := ⟨[[⟨1, 2, 3, 0⟩]]⟩

/-- Container state just after loading `qC2` (all stages disabled). -/
def stC2 : ContainerState :=
  ⟨some (qimage_to_cv qC2), FiltersState.initial, ⟨qC2, "p", qC2⟩⟩

/-- C2 counterexample: with every stage disabled, recomputing from a
non-opaque original publishes an image that is NOT byte-identical to the
original — the cv round trip drops the alpha channel and reinstates it
as 255. -/
theorem c2_counterexample :
    allDisabled stC2.filters = true
    ∧ stC2.originalCv = some (qimage_to_cv qC2)
    ∧ (on_params_changed stC2).published ≠ [qC2]
    ∧ (on_params_changed stC2).state.store.get_edited_img ≠ qC2 := by
  decide

/-- C2 (amended): with every stage disabled, a recomputation publishes
exactly the original with every pixel's alpha forced to 255 (the RGB
channels are untouched); the output is byte-identical to the original
precisely on fully opaque originals. -/
theorem c2_identity_on_disabled (st : ContainerState) (q : QImage)
    (h1 : st.originalCv = some (qimage_to_cv q))
    (h2 : allDisabled st.filters = true) :
    (on_params_changed st).published = [forceOpaque q]
    ∧ (on_params_changed st).state.store.get_edited_img = forceOpaque q
    ∧ (allOpaque q = true →
        (on_params_changed st).published = [q]
        ∧ (on_params_changed st).state.store.get_edited_img = q) := by
  have hap := applyAll_of_allDisabled st.filters (qimage_to_cv q) h2
  have hpub : (on_params_changed st).published = [forceOpaque q] := by
    simp [on_params_changed, h1, hap, roundTrip_eq_forceOpaque]
  have hed : (on_params_changed st).state.store.get_edited_img =
      forceOpaque q := by
    simp [on_params_changed, h1, hap, roundTrip_eq_forceOpaque,
      ImageStore.set_edited_img, ImageStore.get_edited_img]
  refine ⟨hpub, hed, fun hop => ?_⟩
  rw [forceOpaque_of_allOpaque q hop] at hpub hed
  exact ⟨hpub, hed⟩

/-- The fully opaque original of the C2 witness. -/
def qW2 : QImage := ⟨[[⟨9, 8, 7, 255⟩]]⟩

/-- Container state just after loading `qW2` (all stages disabled). -/
def stW2 : ContainerState :=
  ⟨some (qimage_to_cv qW2), FiltersState.initial, ⟨qW2, "p", qW2⟩⟩

/-- Witness for the amended C2 at a concrete fully opaque original. -/
theorem c2_identity_on_disabled_witness :
    stW2.originalCv = some (qimage_to_cv qW2)
    ∧ allDisabled stW2.filters = true
    ∧ (on_params_changed stW2).published = [forceOpaque qW2]
    ∧ (on_params_changed stW2).state.store.get_edited_img = forceOpaque qW2
    ∧ (allOpaque qW2 = true →
        (on_params_changed stW2).published = [qW2]
        ∧ (on_params_changed stW2).state.store.get_edited_img = qW2) := by
  refine ⟨rfl, rfl, ?_⟩
  exact (c2_identity_on_disabled stW2 qW2 rfl rfl).imp id (fun a => a)

/-- C4: with the binarize stage enabled, its `apply` on a 3-channel image
is exactly grayscale conversion followed by thresholding with maxval 255
(the threshold is never applied to 3-channel data), the result is a
single-channel buffer, and each downstream stage (invert, gaussian,
median, morphology) maps single-channel input to single-channel output
(or raises), so everything after that point sees single-channel data. -/
theorem c4_binarize_grayscale_first (b : BinaryFilterWidget)
    (px : List (List BGR)) (iw : InvertFilterWidget)
    (gw : GaussianFilterWidget) (mw : MedianFilterWidget)
    (dw : DilationErosionFilterWidget) (g : List (List Nat))
    (h : b.checked = true) :
    b.apply (.color px) =
      to_binary (.gray (px.map (List.map lumaOfBGR))) b.threshold 255
    ∧ isOkGray (b.apply (.color px)) = true
    ∧ isGrayOrErr (iw.apply (.gray g)) = true
    ∧ isGrayOrErr (gw.apply (.gray g)) = true
    ∧ isGrayOrErr (mw.apply (.gray g)) = true
    ∧ isGrayOrErr (dw.apply (.gray g)) = true := by
  have h1 : b.apply (.color px) =
      to_binary (.gray (px.map (List.map lumaOfBGR))) b.threshold 255 := by
    simp [BinaryFilterWidget.apply, h, to_gray, Bind.bind, Except.bind]
  refine ⟨h1, ?_, ?_, ?_, ?_, ?_⟩
  · rw [h1]; simp [to_binary, isOkGray]
  · cases hc : iw.checked <;>
      simp [InvertFilterWidget.apply, hc, invert, isGrayOrErr]
  · by_cases hc : gw.checked
    · by_cases hk : gw.k1 % 2 = 0 ∨ gw.k2 % 2 = 0 <;>
        simp [GaussianFilterWidget.apply, hc, gaussian_blur, hk, onImage,
          isGrayOrErr]
    · simp [GaussianFilterWidget.apply, hc, isGrayOrErr]
  · by_cases hc : mw.checked
    · by_cases hk : mw.ksize % 2 = 0 <;>
        simp [MedianFilterWidget.apply, hc, median_blur, hk, onImage,
          isGrayOrErr]
    · simp [MedianFilterWidget.apply, hc, isGrayOrErr]
  · by_cases he : dw.enabled
    · by_cases hd : dw.get_checked_radio_btn_id = 1
      · obtain ⟨g2, hg⟩ :=
          repeatApply_onImage_gray maxOf (dw.ksize / 2) dw.iter g
        simp [DilationErosionFilterWidget.apply, he, hd, dilate, hg,
          isGrayOrErr]
      · by_cases he2 : dw.get_checked_radio_btn_id = 2
        · obtain ⟨g2, hg⟩ :=
            repeatApply_onImage_gray minOf (dw.ksize / 2) dw.iter g
          simp [DilationErosionFilterWidget.apply, he, hd, he2, erode, hg,
            isGrayOrErr]
        · simp [DilationErosionFilterWidget.apply, he, hd, he2, isGrayOrErr]
    · simp [DilationErosionFilterWidget.apply, he, isGrayOrErr]

/-- Witness for C4 at a concrete enabled binarize stage, 1×1 color input
and concrete downstream stages. -/
theorem c4_binarize_grayscale_first_witness :
    (⟨true, 100⟩ : BinaryFilterWidget).checked = true
    ∧ (BinaryFilterWidget.apply ⟨true, 100⟩ (.color [[⟨1, 2, 3⟩]]) =
        to_binary (.gray ([[(⟨1, 2, 3⟩ : BGR)]].map (List.map lumaOfBGR)))
          (100 : Nat) 255
      ∧ isOkGray (BinaryFilterWidget.apply ⟨true, 100⟩
          (.color [[⟨1, 2, 3⟩]])) = true
      ∧ isGrayOrErr (InvertFilterWidget.apply ⟨true⟩ (.gray [[5]])) = true
      ∧ isGrayOrErr (GaussianFilterWidget.apply ⟨true, 3, 3⟩
          (.gray [[5]])) = true
      ∧ isGrayOrErr (MedianFilterWidget.apply ⟨true, 3⟩
          (.gray [[5]])) = true
      ∧ isGrayOrErr (DilationErosionFilterWidget.apply
          ⟨true, true, .dilateBtn, 2, 1⟩ (.gray [[5]])) = true) :=
  ⟨rfl, c4_binarize_grayscale_first ⟨true, 100⟩ [[⟨1, 2, 3⟩]] ⟨true⟩
    ⟨true, 3, 3⟩ ⟨true, 3⟩ ⟨true, true, .dilateBtn, 2, 1⟩ [[5]] rfl⟩

/-- A container state whose morphology stage has the erode radio checked
before an image load. -/
def stC5 : ContainerState :=
  ⟨none,
   ⟨⟨true⟩, ⟨true, 30⟩, ⟨true⟩, ⟨true, 5, 5⟩, ⟨true, 5⟩,
    ⟨true, true, .erodeBtn, 7, 4⟩⟩,
   ⟨⟨[]⟩, "", ⟨[]⟩⟩⟩

/-- The original image loaded in the C5 scenarios. -/
def qC5 : QImage := ⟨[[⟨4, 5, 6, 255⟩]]⟩

/-- C5 counterexample: if the erode radio was selected, loading a new
original does NOT restore the morphology stage to "dilate selected" —
`DilationErosionFilterWidget.reset` never touches the radio selection. -/
theorem c5_counterexample :
    ((on_original_image_changed stC5 qC5).1).filters.morph.checkedBtn ≠
      MorphBtn.dilateBtn := by
  decide

/-- C5 (amended): loading a new original resets every stage so that all
report `enabled = false` with the numeric defaults restored (threshold
127, gaussian kernel (3, 3), median kernel 3, morphology kernel 2 and
iterations 1), but the morphology stage's dilate/erode selection is left
as it was (not restored to dilate); the new original is then published
unchanged as the edited image and cached (converted) as the pipeline
source. -/
theorem c5_reset_on_load (st : ContainerState) (q : QImage) :
    allDisabled (on_original_image_changed st q).1.filters = true
    ∧ (on_original_image_changed st q).1.filters.grayscale = ⟨false⟩
    ∧ (on_original_image_changed st q).1.filters.binary = ⟨false, 127⟩
    ∧ (on_original_image_changed st q).1.filters.invertSt = ⟨false⟩
    ∧ (on_original_image_changed st q).1.filters.gaussian = ⟨false, 3, 3⟩
    ∧ (on_original_image_changed st q).1.filters.median = ⟨false, 3⟩
    ∧ (on_original_image_changed st q).1.filters.morph.ksize = 2
    ∧ (on_original_image_changed st q).1.filters.morph.iter = 1
    ∧ (on_original_image_changed st q).1.filters.morph.enabled = false
    ∧ (on_original_image_changed st q).1.filters.morph.checkedBtn =
        st.filters.morph.checkedBtn
    ∧ (on_original_image_changed st q).2 = [q]
    ∧ (on_original_image_changed st q).1.store.get_edited_img = q
    ∧ (on_original_image_changed st q).1.originalCv =
        some (qimage_to_cv q) := by
  simp [on_original_image_changed, reset_all_filters, allDisabled,
    FiltersState.list, FilterWidget.enabled, GrayscaleFilterWidget.reset,
    BinaryFilterWidget.reset, InvertFilterWidget.reset,
    GaussianFilterWidget.reset, MedianFilterWidget.reset,
    DilationErosionFilterWidget.reset, DilationErosionFilterWidget.enabled,
    ImageStore.set_edited_img, ImageStore.get_edited_img]

/-- The edited image at OCR trigger time in the C7 scenario. -/
def qA : QImage := ⟨[[⟨0, 0, 0, 255⟩]]⟩

/-- The edited image published after the trigger but before the worker
executes. -/
def qB : QImage := ⟨[[⟨255, 255, 255, 255⟩]]⟩

/-- C7 counterexample: trigger OCR while the edited image is `qA`, then
publish `qB` before the thread pool executes the worker; the image handed
to the engine is the conversion of `qB`, not of the trigger-time snapshot
`qA` — a pipeline change after the trigger DID affect the run. -/
theorem c7_counterexample :
    (ocrRun ⟨qA, 0, []⟩
        [.trigger, .setEdited qB, .runWorker]).handed =
      [qimage_to_cv qB]
    ∧ qimage_to_cv qB ≠ qimage_to_cv qA := by
  decide

/-- C7 (amended): the snapshot is captured when the worker body executes
(`run_ocr` reads the store then), not when the run is triggered: a
`runWorker` step hands the engine the edited image current at that step,
and images already handed are immune to every later event. -/
theorem c7_snapshot_at_worker_execution (s : OcrSys) (e : OcrEvent)
    (h : s.pending ≠ 0) :
    (ocrStep s .runWorker).handed = s.handed ++ [qimage_to_cv s.edited]
    ∧ ((ocrStep s e).handed).take s.handed.length = s.handed := by
  constructor
  · cases hp : s.pending with
    | zero => exact absurd hp h
    | succ n => simp [ocrStep, hp]
  · cases e with
    | trigger => simp [ocrStep]
    | setEdited q => simp [ocrStep]
    | runWorker =>
      cases hp : s.pending with
      | zero => simp [ocrStep, hp]
      | succ n => simp [ocrStep, hp, List.take_left]

/-- Witness for the amended C7 with one queued run and a competing store
update. -/
theorem c7_snapshot_at_worker_execution_witness :
    (⟨qA, 1, []⟩ : OcrSys).pending ≠ 0
    ∧ ((ocrStep ⟨qA, 1, []⟩ .runWorker).handed =
        ([] : List CVImage) ++ [qimage_to_cv qA]
      ∧ ((ocrStep ⟨qA, 1, []⟩ (.setEdited qB)).handed).take
          ([] : List CVImage).length = ([] : List CVImage)) :=
  ⟨by decide,
   c7_snapshot_at_worker_execution ⟨qA, 1, []⟩ (.setEdited qB) (by decide)⟩

end OCRViewer
